import Mathlib

/-!
Shallow embedding of the round-lifecycle logic of the pop-and-learn app.

Each mini-game screen is embedded as pure Lean functions over explicit
state records.  `Math.floor(Math.random() * n)` is modelled by supplying
an arbitrary natural number `r` and taking `r % n`, which ranges over
exactly the indices the source can produce.  The JavaScript
`array.sort(() => Math.random() - 0.5)` shuffle always returns a
permutation of its input, so shuffled populations are quantified over
`List.Perm`.  Sound-effect and haptic calls have no effect on round state
and are not modelled; text-to-speech calls are modelled where a claim is
about them (the `useSpeech` hook).  Scores are `Int` because the
JavaScript number arithmetic in the handlers is ordinary subtraction
before the explicit `Math.max(0, ...)` clamp.
-/

namespace PopLearn

/-! ### Color-matching variant (src/app/colors.tsx, `ColorsGame`) -/

/-- From src/utils/colors.ts: the `name` fields of `LEARNING_COLORS`
(the gradient values are irrelevant to the round logic). -/
def LEARNING_COLORS : List String :=
  ["Red", "Pink", "Purple", "Blue", "Light Blue", "Teal", "Green", "Yellow",
   "Orange"]

/-- From src/app/colors.tsx line 22: `GRID_SIZE = 4`. -/
def GRID_SIZE : Nat := 4

/-- From src/app/colors.tsx line 23: `TOTAL_BUBBLES = GRID_SIZE * GRID_SIZE`. -/
def TOTAL_BUBBLES : Nat := GRID_SIZE * GRID_SIZE

/-- From src/app/colors.tsx line 24: `GAME_DURATION = 30` seconds. -/
def GAME_DURATION : Nat := 30

/-- From src/app/colors.tsx line 79: `targetColorCount = 8`. -/
def targetColorCount : Nat := 8

/-- `Math.floor(Math.random() * LEARNING_COLORS.length)` then indexing:
src/app/colors.tsx lines 73-74. -/
def selectTargetColor (r : Nat) : String :=
  LEARNING_COLORS.getD (r % LEARNING_COLORS.length) ""

/-- src/app/colors.tsx line 86:
`LEARNING_COLORS.filter((c) => c.name !== target.name)`. -/
def otherColorsFor (target : String) : List String :=
  LEARNING_COLORS.filter (fun c => c ≠ target)

/-- src/app/colors.tsx lines 87-90: the `remainingSpots` distractor
bubbles, each drawn as
`otherColors[Math.floor(Math.random() * otherColors.length)]`;
`rnd i` supplies the i-th random draw. -/
def colorsDistractors (target : String) (rnd : Nat → Nat) : List String :=
  (List.range (TOTAL_BUBBLES - targetColorCount)).map
    (fun i => (otherColorsFor target).getD
      (rnd i % (otherColorsFor target).length) "")

/-- src/app/colors.tsx lines 78-91: `targetColorCount` copies of the target
followed by the distractors (the pre-shuffle `colors` array). -/
def colorsPopulation (rT : Nat) (rnd : Nat → Nat) : List String :=
  List.replicate targetColorCount (selectTargetColor rT) ++
    colorsDistractors (selectTargetColor rT) rnd

/-- Round state of `ColorsGame` (src/app/colors.tsx lines 28-43): each
bubble is a color name paired with its `popped` flag; `remaining` mirrors
`remainingBubbles`, `learned` counts `incrementColorsLearned` calls,
`solved` mirrors `totalColorsSolved`, `pops` counts `incrementPops`
calls. -/
structure ColorsState where
  bubbles : List (String × Bool)
  target : String
  score : Int
  remaining : Int
  active : Bool
  learned : Nat
  solved : Nat
  pops : Nat
deriving DecidableEq, Repr

/-- src/app/colors.tsx lines 164-212, `handlePop(index, color)` where the
caller passes `color = bubbleColors[index]`.  Note the handler checks only
`gameActive`, not the bubble's `popped` flag; the completion test
`remainingBubbles <= 1` uses the pre-decrement value, and the bubble is
marked popped in every branch. -/
def colorsHandlePop (s : ColorsState) (index : Nat) : ColorsState :=
  if s.active = false then s
  else if (s.bubbles.getD index ("", false)).1 = s.target then
    if s.remaining ≤ 1 then
      { s with score := s.score + 10,
               remaining := s.remaining - 1,
               pops := s.pops + 1,
               learned := s.learned + 1,
               solved := s.solved + 1,
               bubbles := s.bubbles.set index
                 ((s.bubbles.getD index ("", false)).1, true) }
    else
      { s with score := s.score + 10,
               remaining := s.remaining - 1,
               pops := s.pops + 1,
               bubbles := s.bubbles.set index
                 ((s.bubbles.getD index ("", false)).1, true) }
  else
    { s with score := max 0 (s.score - 5),
             bubbles := s.bubbles.set index
               ((s.bubbles.getD index ("", false)).1, true) }

/-- The round state right after `initializeGame` (src/app/colors.tsx lines
66-100) installed a (shuffled) population: all bubbles unpopped,
`remainingBubbles = targetColorCount`, round active.  Score starts the
session at 0 and `initializeGame` does not reset it; the counters start
at their session-initial value 0. -/
def initColorsRound (target : String) (population : List String) : ColorsState :=
  { bubbles := population.map (fun c => (c, false)),
    target := target,
    score := 0,
    remaining := (targetColorCount : Int),
    active := true,
    learned := 0,
    solved := 0,
    pops := 0 }

/-- A pop event the UI can actually deliver: the index is a real grid slot
and its bubble is not yet popped (`PopBubble` is rendered with
`disabled={color.popped || !gameActive}`, src/app/colors.tsx line 276). -/
def colorsPopValid (s : ColorsState) (i : Nat) : Bool :=
  decide (i < s.bubbles.length) && !(s.bubbles.getD i ("", false)).2

/-- A bubble that still counts towards `remainingBubbles`: it carries the
target color and is not yet popped. -/
def isUnpoppedTarget (target : String) (b : String × Bool) : Bool :=
  decide (b.1 = target) && !b.2

/-- A whole sequence of UI-deliverable pop events. -/
def colorsValidSeq : ColorsState → List Nat → Bool
  | _, [] => true
  | s, i :: rest => colorsPopValid s i && colorsValidSeq (colorsHandlePop s i) rest

/-- The state touched by the round-countdown interval of `startTimer`
(src/app/colors.tsx lines 103-128).  One `colorsTick` is one firing of the
one-second interval callback. -/
structure ColorsTimerState where
  timeRemaining : Nat
  gameActive : Bool
  showResults : Bool
  learned : Nat
deriving DecidableEq, Repr

/-- src/app/colors.tsx lines 107-122: on each tick, if at most one second
remains the interval is cleared, the round is deactivated and the results
overlay is shown; otherwise the countdown decrements by one. The callback
never touches the `colorsLearned` progress counter. -/
def colorsTick (s : ColorsTimerState) : ColorsTimerState :=
  if s.timeRemaining ≤ 1 then
    { s with timeRemaining := 0, gameActive := false, showResults := true }
  else
    { s with timeRemaining := s.timeRemaining - 1 }

/-- Timer state right after `initializeGame`: countdown at
`GAME_DURATION = 30`, round active, no results, no progress reported. -/
def colorsTimerInit : ColorsTimerState :=
  { timeRemaining := GAME_DURATION, gameActive := true, showResults := false,
    learned := 0 }

/-! ### Letters / numbers variant (src/unnamed/part_004, `AbcGame`) -/

/-- From src/unnamed/part_004 line 421: the 26 letters of `ALPHABET`. -/
def ALPHABET : List String :=
  ["A", "B", "C", "D", "E", "F", "G", "H", "I", "J", "K", "L", "M",
   "N", "O", "P", "Q", "R", "S", "T", "U", "V", "W", "X", "Y", "Z"]

/-- From src/unnamed/part_004 line 422: `NUMBERS = ["1", ..., "10"]`. -/
def NUMBERS : List String :=
  ["1", "2", "3", "4", "5", "6", "7", "8", "9", "10"]

/-- From src/unnamed/part_004 line 487: `targetCount = 5`. -/
def abcTargetCount : Nat := 5

/-- The catalog used by `AbcGame.initializeGame` depending on the mode. -/
def abcItems (alphabetMode : Bool) : List String :=
  if alphabetMode then ALPHABET else NUMBERS

/-- src/unnamed/part_004 lines 481-482:
`target = items[currentIndex % items.length]`. -/
def abcTarget (alphabetMode : Bool) (currentIndex : Nat) : String :=
  (abcItems alphabetMode).getD (currentIndex % (abcItems alphabetMode).length) ""

/-- src/unnamed/part_004 lines 486-499: five copies of the target followed
by `TOTAL_BUBBLES - 5` distractors drawn from
`items.filter((item) => item !== target)` (the pre-shuffle `contents`). -/
def abcPopulation (alphabetMode : Bool) (currentIndex : Nat)
    (rnd : Nat → Nat) : List String :=
  let target := abcTarget alphabetMode currentIndex
  let otherItems := (abcItems alphabetMode).filter (fun item => item ≠ target)
  List.replicate abcTargetCount target ++
    (List.range (TOTAL_BUBBLES - abcTargetCount)).map
      (fun i => otherItems.getD (rnd i % otherItems.length) "")

/-- src/unnamed/part_004 lines 568-570:
`bubbleContents.filter((item, idx) => item === currentTarget && !newPopStates[idx]).length`,
the number of still-unpopped target bubbles.  A missing pop flag counts as
unpopped, as `!undefined` is `true` in JavaScript. -/
def remTargets (target : String) : List String → List Bool → Nat
  | [], _ => 0
  | c :: cs, [] =>
      (if c = target then 1 else 0) + remTargets target cs []
  | c :: cs, p :: ps =>
      (if c = target ∧ p = false then 1 else 0) + remTargets target cs ps

/-- Round state of `AbcGame` (src/unnamed/part_004 lines 432-438):
`lettersLearned` counts `incrementLettersLearned` calls, `completedCount`
mirrors the screen's own counter, `pops` counts `incrementPops` calls. -/
structure AbcState where
  bubbleContents : List String
  popStates : List Bool
  currentTarget : String
  showCelebration : Bool
  lettersLearned : Nat
  completedCount : Nat
  pops : Nat
deriving DecidableEq, Repr

/-- src/unnamed/part_004 lines 547-603, `handlePop(index, content)` where
the caller passes `content = bubbleContents[index]`.  Guarded by
`popStates[index]`; `incrementPops` runs only on a correct pop; the
completion test recomputes the remaining targets from the updated pop
states. -/
def abcHandlePop (s : AbcState) (index : Nat) : AbcState :=
  if s.popStates.getD index false then s
  else if s.bubbleContents.getD index "" = s.currentTarget then
    if remTargets s.currentTarget s.bubbleContents
        (s.popStates.set index true) = 0 then
      { s with popStates := s.popStates.set index true,
               pops := s.pops + 1,
               showCelebration := true,
               lettersLearned := s.lettersLearned + 1,
               completedCount := s.completedCount + 1 }
    else
      { s with popStates := s.popStates.set index true,
               pops := s.pops + 1 }
  else
    { s with popStates := s.popStates.set index true }

/-- The `AbcGame` round state right after `initializeGame` installed a
(shuffled) `contents` array: `popStates` is `Array(TOTAL_BUBBLES).fill(false)`
and the counters are at their session-initial value 0. -/
def initAbcRound (target : String) (contents : List String) : AbcState :=
  { bubbleContents := contents,
    popStates := List.replicate TOTAL_BUBBLES false,
    currentTarget := target,
    showCelebration := false,
    lettersLearned := 0,
    completedCount := 0,
    pops := 0 }

/-- A pop event the `AbcGame` UI can deliver: a real grid slot whose
bubble is not yet popped. -/
def abcPopValid (s : AbcState) (i : Nat) : Bool :=
  decide (i < s.popStates.length) && !(s.popStates.getD i false)

/-- A whole sequence of UI-deliverable `AbcGame` pop events. -/
def abcValidSeq : AbcState → List Nat → Bool
  | _, [] => true
  | s, i :: rest => abcPopValid s i && abcValidSeq (abcHandlePop s i) rest

/-! ### Falling-shape variant (src/app/balloon.tsx, `BalloonShapesGame`) -/

/-- From src/app/balloon.tsx lines 30-35: the `ShapeType` catalog. -/
inductive ShapeType where
  | circle
  | square
  | triangle
  | star
deriving DecidableEq, Repr

/-- `Object.values(ShapeType)` in declaration order. -/
def shapeValues : List ShapeType :=
  [ShapeType.circle, ShapeType.square, ShapeType.triangle, ShapeType.star]

/-- From src/app/balloon.tsx lines 51-55 and 345-356: difficulty levels and
`getActiveBalloonCount`. -/
inductive BalloonDifficulty where
  | easy
  | medium
  | hard
deriving DecidableEq, Repr

def getActiveBalloonCount : BalloonDifficulty → Nat
  | BalloonDifficulty.easy => 6
  | BalloonDifficulty.medium => 10
  | BalloonDifficulty.hard => 14

/-- src/app/balloon.tsx lines 570-573: `createBalloon`'s shape choice
(the spatial fields — position, size, speed — are floating-point render
parameters irrelevant to the target-count claims and are not modelled). -/
def createBalloonType (r : Nat) : ShapeType :=
  shapeValues.getD (r % shapeValues.length) ShapeType.circle

/-- src/app/balloon.tsx lines 610-642, `initializeBalloons` restricted to
the shape content: generate `count` random shapes, pick a random target
shape, and if no generated balloon matches it, overwrite the shape at a
random index with the target (forced insertion).  Returns the target and
the final list of shapes. -/
def initializeBalloonTypes (d : BalloonDifficulty) (rndShape : Nat → Nat)
    (rT rF : Nat) : ShapeType × List ShapeType :=
  let count := getActiveBalloonCount d
  let newTypes := (List.range count).map (fun i => createBalloonType (rndShape i))
  let target := shapeValues.getD (rT % shapeValues.length) ShapeType.circle
  let hasTarget := newTypes.any (fun t => t = target)
  let finalTypes :=
    if hasTarget then newTypes
    else if 0 < newTypes.length then
      newTypes.set (rF % newTypes.length) target
    else newTypes
  (target, finalTypes)

/-! ### Arithmetic variant (src/app/math.tsx, `MathGame`) -/

/-- From src/app/math.tsx lines 29-32. -/
inductive ProblemType where
  | addition
  | subtraction
deriving DecidableEq, Repr

/-- From src/app/math.tsx lines 34-39. -/
structure MathProblem where
  num1 : Int
  num2 : Int
  type : ProblemType
  answer : Int
deriving DecidableEq, Repr

/-- From src/app/math.tsx lines 23-26. -/
inductive MathDifficulty where
  | easy
  | hard
deriving DecidableEq, Repr

/-- src/app/math.tsx line 198: `maxNum = difficulty === EASY ? 5 : 10`. -/
def maxNumFor : MathDifficulty → Nat
  | MathDifficulty.easy => 5
  | MathDifficulty.hard => 10

/-- src/app/math.tsx lines 194-221 (identical in src/unnamed/part_003
lines 128-145), `generateProblem`: `isAddition` models
`Math.random() > 0.5`; operands are `Math.floor(Math.random() * bound) + 1`
with the subtraction second operand bounded by the first. -/
def generateProblem (d : MathDifficulty) (isAddition : Bool)
    (r1 r2 : Nat) : MathProblem :=
  let maxNum := maxNumFor d
  match isAddition with
  | true =>
    let num1 := r1 % maxNum + 1
    let num2 := r2 % maxNum + 1
    { num1 := (num1 : Int), num2 := (num2 : Int),
      type := ProblemType.addition,
      answer := (num1 : Int) + (num2 : Int) }
  | false =>
    let num1 := r1 % maxNum + 1
    let num2 := r2 % num1 + 1
    { num1 := (num1 : Int), num2 := (num2 : Int),
      type := ProblemType.subtraction,
      answer := (num1 : Int) - (num2 : Int) }

/-- src/app/math.tsx line 230: the distractor bound
`maxNum = difficulty === EASY ? 10 : 20`. -/
def distractorMaxFor : MathDifficulty → Nat
  | MathDifficulty.easy => 10
  | MathDifficulty.hard => 20

/-- src/app/math.tsx lines 232-243: the bounded distractor loop.  Each
iteration draws `Math.floor(Math.random() * maxNum) + 1` and inserts it
into the answer set if new (JavaScript `Set` preserves insertion order);
`attemptsLeft` is `maxAttempts - safetyCounter` and the loop also stops
as soon as the set holds `TOTAL_BUBBLES` values.  Returns the set as an
ordered list together with the number of iterations used. -/
def genAnswersLoop (rnd : Nat → Nat) (maxNum : Nat) :
    Nat → Nat → List Int → List Int × Nat
  | 0, calls, acc => (acc, calls)
  | n + 1, calls, acc =>
    if acc.length < TOTAL_BUBBLES then
      let d : Int := ((rnd calls % maxNum : Nat) : Int) + 1
      genAnswersLoop rnd maxNum n (calls + 1)
        (if d ∈ acc then acc else acc ++ [d])
    else (acc, calls)

/-- src/app/math.tsx lines 224-257, `generateBubbleAnswers`: the answer
followed by up to 100 attempted distractors, truncated to the grid size
(the final random shuffle is a permutation and is quantified separately). -/
def generateBubbleAnswers (d : MathDifficulty) (rnd : Nat → Nat)
    (answer : Int) : List Int :=
  ((genAnswersLoop rnd (distractorMaxFor d) 100 0 [answer]).1).take TOTAL_BUBBLES

/-- src/unnamed/part_003 lines 152-158: the same distractor loop but with
NO safety counter — `while (answers.length < TOTAL_BUBBLES)` retries
forever.  `fuel` here only truncates the model after a given number of
iterations; the real loop exits only when the length reaches
`TOTAL_BUBBLES`. -/
def part3Loop (rnd : Nat → Nat) (maxNum : Nat) :
    Nat → Nat → List Int → List Int
  | 0, _, acc => acc
  | n + 1, calls, acc =>
    if acc.length < TOTAL_BUBBLES then
      let d : Int := ((rnd calls % maxNum : Nat) : Int) + 1
      part3Loop rnd maxNum n (calls + 1)
        (if d ∈ acc then acc else acc ++ [d])
    else acc

/-- Round state of `MathGame` (src/app/math.tsx lines 46-64):
`mathCompleted` counts `incrementMathProblems` calls, `pops` counts
`incrementPops` calls. -/
structure MathState where
  problem : MathProblem
  bubbleAnswers : List Int
  popStates : List Bool
  score : Int
  mathCompleted : Nat
  pops : Nat
deriving DecidableEq, Repr

/-- src/app/math.tsx lines 352-399, `handleAnswerSelect(index, answer)`
where the caller passes `answer = bubbleAnswers[index]`.  Guarded by
`popStates[index]`; the tapped bubble is marked pressed in both branches,
a correct answer adds 10 and reports a completed problem, a wrong answer
subtracts 5 clamped at 0; `incrementPops` runs in both branches. -/
def mathHandleAnswerSelect (s : MathState) (index : Nat) : MathState :=
  if s.popStates.getD index false then s
  else if s.bubbleAnswers.getD index 0 = s.problem.answer then
    { s with popStates := s.popStates.set index true,
             score := s.score + 10,
             mathCompleted := s.mathCompleted + 1,
             pops := s.pops + 1 }
  else
    { s with popStates := s.popStates.set index true,
             score := max 0 (s.score - 5),
             pops := s.pops + 1 }

/-- `MathGame` state right after `initializeGame` (src/app/math.tsx lines
283-321): fresh pop states, session-initial score 0. -/
def initMathRound (problem : MathProblem) (answers : List Int) : MathState :=
  { problem := problem,
    bubbleAnswers := answers,
    popStates := List.replicate TOTAL_BUBBLES false,
    score := 0,
    mathCompleted := 0,
    pops := 0 }

/-- A pop event the `MathGame` UI can deliver: a rendered answer bubble
(the grid maps over `bubbleAnswers`), with a real pop-state slot, not yet
pressed. -/
def mathPopValid (s : MathState) (i : Nat) : Bool :=
  decide (i < s.bubbleAnswers.length) && decide (i < s.popStates.length) &&
    !(s.popStates.getD i false)

/-- A whole sequence of UI-deliverable `MathGame` pop events. -/
def mathValidSeq : MathState → List Nat → Bool
  | _, [] => true
  | s, i :: rest => mathPopValid s i && mathValidSeq (mathHandleAnswerSelect s i) rest

/-- The number of pressed bubbles whose payload equals `target`, walking
the payload and pop-state arrays in parallel (a missing pop flag counts
as unpressed). -/
def poppedMatching {α : Type} [DecidableEq α] (target : α) :
    List α → List Bool → Nat
  | [], _ => 0
  | _ :: _, [] => 0
  | c :: cs, p :: ps =>
      (if c = target ∧ p = true then 1 else 0) + poppedMatching target cs ps

/-- Round state of the older arithmetic screen (src/unnamed/part_003
lines 46-76). -/
structure Part3State where
  problem : MathProblem
  bubbleAnswers : List Int
  popStates : List Bool
  showResult : Bool
  isCorrect : Bool
  score : Int
  mathCompleted : Nat
  pops : Nat
deriving DecidableEq, Repr

/-- src/unnamed/part_003 lines 222-275, `handleAnswerSelect`.  Guarded by
`showResult` and `popStates[index]`.  A wrong answer marks the bubble
pressed and a 300 ms timeout reverts exactly that bubble to unpopped;
both effects are folded into this single synchronous step. -/
def part3HandleAnswerSelect (s : Part3State) (index : Nat) : Part3State :=
  if s.showResult then s
  else if s.popStates.getD index false then s
  else if s.bubbleAnswers.getD index 0 = s.problem.answer then
    { s with popStates := s.popStates.set index true,
             score := s.score + 10,
             mathCompleted := s.mathCompleted + 1,
             isCorrect := true,
             showResult := true,
             pops := s.pops + 1 }
  else
    { s with popStates := (s.popStates.set index true).set index false,
             score := max 0 (s.score - 5),
             pops := s.pops + 1 }

/-- Round state right after part_003's `initializeGame`. -/
def initPart3Round (problem : MathProblem) (answers : List Int) : Part3State :=
  { problem := problem,
    bubbleAnswers := answers,
    popStates := List.replicate TOTAL_BUBBLES false,
    showResult := false,
    isCorrect := false,
    score := 0,
    mathCompleted := 0,
    pops := 0 }

/-! ### Speed variant (src/app/speed.tsx, `SpeedGame`) -/

/-- Round state of `SpeedGame` (src/app/speed.tsx lines 30-39). -/
structure SpeedState where
  bubbleStates : List Bool
  score : Int
  poppedCount : Nat
  active : Bool
  pops : Nat
deriving DecidableEq, Repr

/-- src/app/speed.tsx lines 139-164, `handlePop(index)`: guarded by
`!gameActive || bubbleStates[index]`; a pop marks the bubble, counts it
and adds one point. -/
def speedHandlePop (s : SpeedState) (index : Nat) : SpeedState :=
  if !s.active || s.bubbleStates.getD index false then s
  else
    { s with bubbleStates := s.bubbleStates.set index true,
             poppedCount := s.poppedCount + 1,
             score := s.score + 1,
             pops := s.pops + 1 }

/-! ### Speech gate (src/hooks/useSpeech.ts) and session stats
(src/contexts/GameContext.tsx) -/

/-- From src/contexts/GameContext.tsx line 4:
`AudioSetting = "full" | "noSpeech" | "noSound" | "mute"`. -/
inductive AudioSetting where
  | full
  | noSpeech
  | noSound
  | mute
deriving DecidableEq, Repr

/-- The observable calls `speakText` makes into the `expo-speech`
collaborator. -/
inductive SpeechAction where
  | stopUtterance
  | startUtterance (text : String) (language : String)
deriving DecidableEq, Repr

/-- src/hooks/useSpeech.ts lines 14-21, `speakText(text, options)` as the
list of collaborator calls it performs: when the audio setting disables
narration it returns without any call; otherwise it defaults the language
to "en-GB", stops any in-flight utterance and starts the new one. -/
def speakTextActions (setting : AudioSetting) (text : String)
    (language : Option String) : List SpeechAction :=
  if setting = AudioSetting.noSpeech ∨ setting = AudioSetting.mute then []
  else
    [SpeechAction.stopUtterance,
     SpeechAction.startUtterance text (language.getD "en-GB")]

/-- src/contexts/GameContext.tsx lines 107-111, `updateHighScore(score)`:
the stored high score is replaced only when strictly exceeded. -/
def updateHighScore (highScore score : Int) : Int :=
  if score > highScore then score else highScore

end PopLearn

/-! ## Helper lemmas -/

namespace PopLearn

/-- An in-range `getD` is a member of the list. -/
lemma getD_mem {α : Type} (l : List α) (d : α) (i : Nat) (h : i < l.length) :
    l.getD i d ∈ l := by
  induction l generalizing i with
  | nil => simp at h
  | cons x xs ih =>
    cases i with
    | zero => simp [List.getD]
    | succ j =>
      have hj : j < xs.length := by simpa using h
      simpa [List.getD] using Or.inr (by simpa [List.getD] using ih j hj)

/-- Reading back a just-written list position. -/
lemma getD_set_self {α : Type} (l : List α) (i : Nat) (a d : α)
    (h : i < l.length) : (l.set i a).getD i d = a := by
  induction l generalizing i with
  | nil => simp at h
  | cons x xs ih =>
    cases i with
    | zero => simp [List.getD]
    | succ j => simpa [List.getD] using ih j (by simpa using h)

/-- Writing a value into a valid list position makes it a member. -/
lemma mem_set_self {α : Type} (l : List α) (i : Nat) (a : α)
    (h : i < l.length) : a ∈ l.set i a := by
  induction l generalizing i with
  | nil => simp at h
  | cons x xs ih =>
    cases i with
    | zero => simp
    | succ j => exact List.mem_cons_of_mem x (ih j (by simpa using h))

/-- Removing one value from a duplicate-free list of at least two elements
leaves at least one element. -/
lemma filter_ne_pos {α : Type} [DecidableEq α] (l : List α) (hl : l.Nodup)
    (h2 : 2 ≤ l.length) (t : α) :
    0 < (l.filter (fun x => x ≠ t)).length := by
  match l, hl, h2 with
  | a :: b :: rest, hl, _ =>
    by_cases ha : a = t
    · by_cases hb : b = t
      · exact absurd (ha.trans hb.symm) (by simp [List.nodup_cons] at hl; tauto)
      · have : b ∈ (a :: b :: rest).filter (fun x => x ≠ t) := by
          simp [List.mem_filter, hb]
        exact List.length_pos.mpr (List.ne_nil_of_mem this)
    · have : a ∈ (a :: b :: rest).filter (fun x => x ≠ t) := by
        simp [List.mem_filter, ha]
      exact List.length_pos.mpr (List.ne_nil_of_mem this)

lemma LEARNING_COLORS_nodup : LEARNING_COLORS.Nodup := by decide

/-- The distractor pool is never empty: at least 8 of the 9 learning
colors differ from any given target. -/
lemma otherColorsFor_pos (t : String) : 0 < (otherColorsFor t).length :=
  filter_ne_pos _ LEARNING_COLORS_nodup (by decide) t

/-- Every distractor differs from the target color. -/
lemma colorsDistractors_ne (target : String) (rnd : Nat → Nat) :
    ∀ x ∈ colorsDistractors target rnd, x ≠ target := by
  intro x hx
  simp only [colorsDistractors, List.mem_map, List.mem_range] at hx
  obtain ⟨i, _, rfl⟩ := hx
  have hpos := otherColorsFor_pos target
  have hmem := getD_mem (otherColorsFor target) ""
    (rnd i % (otherColorsFor target).length) (Nat.mod_lt _ hpos)
  simp only [otherColorsFor, List.mem_filter, decide_eq_true_eq] at hmem
  exact hmem.2

/-- The generated color population contains the target exactly
`targetColorCount = 8` times. -/
lemma colorsPopulation_count (rT : Nat) (rnd : Nat → Nat) :
    (colorsPopulation rT rnd).count (selectTargetColor rT) = targetColorCount := by
  unfold colorsPopulation
  rw [List.count_append, List.count_replicate_self]
  have : (colorsDistractors (selectTargetColor rT) rnd).count
      (selectTargetColor rT) = 0 := by
    rw [List.count_eq_zero]
    intro hmem
    exact colorsDistractors_ne _ rnd _ hmem rfl
  omega

/-- The generated color population fills all 16 grid slots. -/
lemma colorsPopulation_length (rT : Nat) (rnd : Nat → Nat) :
    (colorsPopulation rT rnd).length = TOTAL_BUBBLES := by
  simp [colorsPopulation, colorsDistractors, targetColorCount, TOTAL_BUBBLES,
    GRID_SIZE]

/-- Every non-target slot of the population holds a color different from
the target: there are exactly 8 such distractor slots. -/
lemma colorsPopulation_countP_ne (rT : Nat) (rnd : Nat → Nat) :
    (colorsPopulation rT rnd).countP (fun c => c ≠ selectTargetColor rT) = 8 := by
  unfold colorsPopulation
  rw [List.countP_append]
  have h1 : (List.replicate targetColorCount (selectTargetColor rT)).countP
      (fun c => c ≠ selectTargetColor rT) = 0 := by
    simp [List.countP_eq_zero]
  have h2 : (colorsDistractors (selectTargetColor rT) rnd).countP
      (fun c => c ≠ selectTargetColor rT) =
      (colorsDistractors (selectTargetColor rT) rnd).length := by
    rw [List.countP_eq_length]
    intro a ha
    simpa using colorsDistractors_ne _ rnd a ha
  have h3 : (colorsDistractors (selectTargetColor rT) rnd).length = 8 := by
    simp [colorsDistractors, TOTAL_BUBBLES, GRID_SIZE, targetColorCount]
  omega

lemma abcItems_nodup (m : Bool) : (abcItems m).Nodup := by
  cases m <;> decide

lemma abcItems_two_le (m : Bool) : 2 ≤ (abcItems m).length := by
  cases m <;> decide

/-- The letters/numbers distractor pool is never empty. -/
lemma abcOther_pos (m : Bool) (t : String) :
    0 < ((abcItems m).filter (fun item => item ≠ t)).length :=
  filter_ne_pos _ (abcItems_nodup m) (abcItems_two_le m) t

/-- The generated letters/numbers population contains the target exactly
`abcTargetCount = 5` times. -/
lemma abcPopulation_count (m : Bool) (idx : Nat) (rnd : Nat → Nat) :
    (abcPopulation m idx rnd).count (abcTarget m idx) = abcTargetCount := by
  unfold abcPopulation
  rw [List.count_append, List.count_replicate_self]
  have h0 : ((List.range (TOTAL_BUBBLES - abcTargetCount)).map
      (fun i => ((abcItems m).filter (fun item => item ≠ abcTarget m idx)).getD
        (rnd i % ((abcItems m).filter (fun item => item ≠ abcTarget m idx)).length)
        "")).count (abcTarget m idx) = 0 := by
    rw [List.count_eq_zero]
    intro hmem
    simp only [List.mem_map, List.mem_range] at hmem
    obtain ⟨i, _, heq⟩ := hmem
    have hpos := abcOther_pos m (abcTarget m idx)
    have hmem2 := getD_mem ((abcItems m).filter (fun item => item ≠ abcTarget m idx))
      "" (rnd i % ((abcItems m).filter (fun item => item ≠ abcTarget m idx)).length)
      (Nat.mod_lt _ hpos)
    rw [heq] at hmem2
    simp only [List.mem_filter, decide_eq_true_eq] at hmem2
    exact hmem2.2 rfl
  omega

/-- The generated letters/numbers population fills all 16 grid slots. -/
lemma abcPopulation_length (m : Bool) (idx : Nat) (rnd : Nat → Nat) :
    (abcPopulation m idx rnd).length = TOTAL_BUBBLES := by
  simp [abcPopulation, TOTAL_BUBBLES, GRID_SIZE, abcTargetCount]

/-- The forced-insertion step of `initializeBalloons`: whether or not the
random generation produced a target-shaped balloon, the result contains
the target. -/
lemma forcedInsert_mem (l : List ShapeType) (target : ShapeType) (rF : Nat)
    (hpos : 0 < l.length) :
    target ∈ (if l.any (fun t => t = target) then l
              else if 0 < l.length then l.set (rF % l.length) target else l) := by
  by_cases h : l.any (fun t => t = target)
  · rw [if_pos h]
    obtain ⟨x, hx, hxt⟩ := List.any_eq_true.mp h
    rw [decide_eq_true_eq] at hxt
    exact hxt ▸ hx
  · rw [if_neg h, if_pos hpos]
    exact mem_set_self l _ target (Nat.mod_lt _ hpos)

/-- After `initializeBalloons`, at least one balloon carries the target
shape (forced insertion guarantees it). -/
lemma initializeBalloonTypes_mem (d : BalloonDifficulty) (rndShape : Nat → Nat)
    (rT rF : Nat) :
    (initializeBalloonTypes d rndShape rT rF).1 ∈
      (initializeBalloonTypes d rndShape rT rF).2 := by
  have hpos : 0 < ((List.range (getActiveBalloonCount d)).map
      (fun i => createBalloonType (rndShape i))).length := by
    rw [List.length_map, List.length_range]
    cases d <;> decide
  simpa only [initializeBalloonTypes] using
    forcedInsert_mem _ (shapeValues.getD (rT % shapeValues.length) ShapeType.circle)
      rF hpos

/-- A pop on an already-pressed math bubble is ignored. -/
lemma mathHandle_noop_of_popped (s : MathState) (i : Nat)
    (h : s.popStates.getD i false = true) : mathHandleAnswerSelect s i = s := by
  unfold mathHandleAnswerSelect
  rw [if_pos h]

/-- After an in-range math pop, the tapped slot is marked pressed. -/
lemma mathHandle_popped_after (s : MathState) (i : Nat)
    (h : ¬(s.popStates.getD i false = true)) (hlen : i < s.popStates.length) :
    (mathHandleAnswerSelect s i).popStates.getD i false = true := by
  unfold mathHandleAnswerSelect
  rw [if_neg h]
  split
  · exact getD_set_self _ i true false hlen
  · exact getD_set_self _ i true false hlen

/-- A pop on an inactive speed round or an already-popped speed bubble is
ignored. -/
lemma speedHandle_noop (s : SpeedState) (i : Nat)
    (h : (!s.active || s.bubbleStates.getD i false) = true) :
    speedHandlePop s i = s := by
  unfold speedHandlePop
  rw [if_pos h]

/-- A pop on an already-popped letters bubble is ignored. -/
lemma abcHandle_noop_of_popped (s : AbcState) (i : Nat)
    (h : s.popStates.getD i false = true) : abcHandlePop s i = s := by
  unfold abcHandlePop
  rw [if_pos h]

/-- After an in-range letters pop, the tapped slot is marked popped. -/
lemma abcHandle_popped_after (s : AbcState) (i : Nat)
    (h : ¬(s.popStates.getD i false = true)) (hlen : i < s.popStates.length) :
    (abcHandlePop s i).popStates.getD i false = true := by
  unfold abcHandlePop
  rw [if_neg h]
  split
  · split
    · exact getD_set_self _ i true false hlen
    · exact getD_set_self _ i true false hlen
  · exact getD_set_self _ i true false hlen

/-- One colors pop keeps the score non-negative. -/
lemma colorsHandlePop_score_nonneg (s : ColorsState) (i : Nat)
    (h : 0 ≤ s.score) : 0 ≤ (colorsHandlePop s i).score := by
  unfold colorsHandlePop
  split
  · exact h
  · split
    · split
      · dsimp only
        omega
      · dsimp only
        omega
    · dsimp only
      exact le_max_left 0 _

/-- One math pop keeps the score non-negative. -/
lemma mathHandle_score_nonneg (s : MathState) (i : Nat)
    (h : 0 ≤ s.score) : 0 ≤ (mathHandleAnswerSelect s i).score := by
  unfold mathHandleAnswerSelect
  split
  · exact h
  · split
    · dsimp only
      omega
    · dsimp only
      exact le_max_left 0 _

/-- One part_003 pop keeps the score non-negative. -/
lemma part3Handle_score_nonneg (s : Part3State) (i : Nat)
    (h : 0 ≤ s.score) : 0 ≤ (part3HandleAnswerSelect s i).score := by
  unfold part3HandleAnswerSelect
  split
  · exact h
  · split
    · exact h
    · split
      · dsimp only
        omega
      · dsimp only
        exact le_max_left 0 _

/-- Writing one position of a list shifts `countP` by the difference of
the predicate at the old and the new value. -/
lemma countP_set_getD {α : Type} (p : α → Bool) (l : List α) (i : Nat)
    (a d : α) (h : i < l.length) :
    (l.set i a).countP p + (if p (l.getD i d) then 1 else 0) =
      l.countP p + (if p a then 1 else 0) := by
  induction l generalizing i with
  | nil => simp at h
  | cons x xs ih =>
    cases i with
    | zero =>
      simp only [List.set_cons_zero, List.getD_cons_zero, List.countP_cons]
      split_ifs <;> omega
    | succ j =>
      simp only [List.set_cons_succ, List.getD_cons_succ, List.countP_cons]
      have hrec := ih j (by simpa using h)
      split_ifs at hrec ⊢ <;> omega

lemma isUnpoppedTarget_popped (target name : String) :
    isUnpoppedTarget target (name, true) = false := by
  simp [isUnpoppedTarget]

/-- The count of unpopped target bubbles right after a round starts is the
count of target colors in the population. -/
lemma initColors_countP (target : String) (population : List String) :
    (initColorsRound target population).bubbles.countP (isUnpoppedTarget target) =
      population.countP (fun c => decide (c = target)) := by
  simp [initColorsRound, List.countP_map, Function.comp_def, isUnpoppedTarget]

/-- `countP` version of `colorsPopulation_count`. -/
lemma colorsPopulation_countP_eq (rT : Nat) (rnd : Nat → Nat) :
    (colorsPopulation rT rnd).countP
      (fun c => decide (c = selectTargetColor rT)) = targetColorCount := by
  unfold colorsPopulation
  rw [List.countP_append]
  have h1 : (List.replicate targetColorCount (selectTargetColor rT)).countP
      (fun c => decide (c = selectTargetColor rT)) = targetColorCount := by
    rw [List.countP_eq_length.mpr, List.length_replicate]
    intro a ha
    rw [List.eq_of_mem_replicate ha]
    simp
  have h2 : (colorsDistractors (selectTargetColor rT) rnd).countP
      (fun c => decide (c = selectTargetColor rT)) = 0 := by
    rw [List.countP_eq_zero]
    intro a ha
    simpa using colorsDistractors_ne _ rnd a ha
  omega

/-- One UI-valid pop preserves the colors-round bookkeeping invariant:
the round stays active, the target is unchanged, `remainingBubbles`
equals the number of unpopped target bubbles, and `colorsLearned` has
been bumped exactly when the round is complete. -/
lemma colorsStep_facts (s : ColorsState) (i : Nat)
    (hval : colorsPopValid s i = true)
    (hact : s.active = true)
    (hrem : s.remaining = (s.bubbles.countP (isUnpoppedTarget s.target) : Int))
    (hlearn : s.learned = if s.remaining = 0 then 1 else 0) :
    (colorsHandlePop s i).active = true ∧
    (colorsHandlePop s i).remaining =
      ((colorsHandlePop s i).bubbles.countP
        (isUnpoppedTarget (colorsHandlePop s i).target) : Int) ∧
    (colorsHandlePop s i).learned =
      if (colorsHandlePop s i).remaining = 0 then 1 else 0 := by
  rw [colorsPopValid, Bool.and_eq_true, decide_eq_true_eq, Bool.not_eq_eq_eq_not,
    Bool.not_true] at hval
  obtain ⟨hi, hp⟩ := hval
  have hfalse : ¬(s.active = false) := by
    rw [hact]
    exact fun hcontra => Bool.noConfusion hcontra
  have hone : (if (true : Bool) = true then (1 : Nat) else 0) = 1 := rfl
  have hzero : (if (false : Bool) = true then (1 : Nat) else 0) = 0 := rfl
  have hkey := countP_set_getD (isUnpoppedTarget s.target) s.bubbles i
    ((s.bubbles.getD i ("", false)).1, true) ("", false) hi
  rw [isUnpoppedTarget_popped, hzero] at hkey
  by_cases hname : (s.bubbles.getD i ("", false)).1 = s.target
  · have hpold : isUnpoppedTarget s.target (s.bubbles.getD i ("", false)) = true := by
      unfold isUnpoppedTarget
      rw [decide_eq_true hname, hp]
      rfl
    have hpos : 0 < s.bubbles.countP (isUnpoppedTarget s.target) :=
      List.countP_pos_iff.mpr ⟨_, getD_mem _ _ i hi, hpold⟩
    rw [hpold, hone] at hkey
    by_cases hle : s.remaining ≤ 1
    · have hstep : colorsHandlePop s i =
          { s with score := s.score + 10,
                   remaining := s.remaining - 1,
                   pops := s.pops + 1,
                   learned := s.learned + 1,
                   solved := s.solved + 1,
                   bubbles := s.bubbles.set i
                     ((s.bubbles.getD i ("", false)).1, true) } := by
        unfold colorsHandlePop
        rw [if_neg hfalse, if_pos hname, if_pos hle]
      rw [hstep]
      refine ⟨hact, ?_, ?_⟩
      · show s.remaining - 1 =
          ((s.bubbles.set i ((s.bubbles.getD i ("", false)).1, true)).countP
            (isUnpoppedTarget s.target) : Int)
        omega
      · show s.learned + 1 =
          if s.remaining - 1 = 0 then 1 else 0
        rw [hlearn]
        split_ifs <;> omega
    · have hstep : colorsHandlePop s i =
          { s with score := s.score + 10,
                   remaining := s.remaining - 1,
                   pops := s.pops + 1,
                   bubbles := s.bubbles.set i
                     ((s.bubbles.getD i ("", false)).1, true) } := by
        unfold colorsHandlePop
        rw [if_neg hfalse, if_pos hname, if_neg hle]
      rw [hstep]
      refine ⟨hact, ?_, ?_⟩
      · show s.remaining - 1 =
          ((s.bubbles.set i ((s.bubbles.getD i ("", false)).1, true)).countP
            (isUnpoppedTarget s.target) : Int)
        omega
      · show s.learned =
          if s.remaining - 1 = 0 then 1 else 0
        rw [hlearn]
        split_ifs <;> omega
  · have hpold : isUnpoppedTarget s.target (s.bubbles.getD i ("", false)) = false := by
      unfold isUnpoppedTarget
      rw [decide_eq_false hname]
      rfl
    rw [hpold, hzero] at hkey
    have hstep : colorsHandlePop s i =
        { s with score := max 0 (s.score - 5),
                 bubbles := s.bubbles.set i
                   ((s.bubbles.getD i ("", false)).1, true) } := by
      unfold colorsHandlePop
      rw [if_neg hfalse, if_neg hname]
    rw [hstep]
    refine ⟨hact, ?_, ?_⟩
    · show s.remaining =
        ((s.bubbles.set i ((s.bubbles.getD i ("", false)).1, true)).countP
          (isUnpoppedTarget s.target) : Int)
      omega
    · exact hlearn

/-- Along any UI-valid pop sequence from a state satisfying the colors
bookkeeping invariant, `colorsLearned` reads 1 exactly when the round has
been completed (no unpopped target bubbles remain) and 0 otherwise. -/
lemma colorsSeq_learned : ∀ (evts : List Nat) (s : ColorsState),
    colorsValidSeq s evts = true → s.active = true →
    s.remaining = (s.bubbles.countP (isUnpoppedTarget s.target) : Int) →
    s.learned = (if s.remaining = 0 then 1 else 0) →
    (evts.foldl colorsHandlePop s).learned =
      if (evts.foldl colorsHandlePop s).remaining = 0 then 1 else 0 := by
  intro evts
  induction evts with
  | nil =>
    intro s _ _ _ hlearn
    exact hlearn
  | cons e rest ih =>
    intro s hval hact hrem hlearn
    rw [colorsValidSeq, Bool.and_eq_true] at hval
    obtain ⟨h1, h2⟩ := hval
    obtain ⟨ha, hr, hl⟩ := colorsStep_facts s e h1 hact hrem hlearn
    exact ih _ h2 ha hr hl

/-- With no bubble popped, the remaining-target count is the number of
target payloads in the contents. -/
lemma remTargets_all_false (target : String) : ∀ (cs : List String) (ps : List Bool),
    (∀ p ∈ ps, p = false) →
    remTargets target cs ps = cs.countP (fun c => decide (c = target)) := by
  intro cs
  induction cs with
  | nil =>
    intro ps _
    rw [remTargets.eq_def]
    cases ps <;> simp
  | cons c cs ih =>
    intro ps hps
    cases ps with
    | nil =>
      rw [remTargets, List.countP_cons, ih [] (by intro p hp; simp at hp)]
      by_cases hc : c = target
      · rw [if_pos hc, if_pos (decide_eq_true hc)]
        omega
      · rw [if_neg hc, if_neg (by simp [hc])]
        omega
    | cons p ps' =>
      have hp : p = false := hps p (List.mem_cons_self p ps')
      subst hp
      rw [remTargets, List.countP_cons,
        ih ps' (fun q hq => hps q (List.mem_cons_of_mem _ hq))]
      by_cases hc : c = target
      · rw [if_pos ⟨hc, rfl⟩, if_pos (decide_eq_true hc)]
        omega
      · rw [if_neg (fun hcc => hc hcc.1), if_neg (by simp [hc])]
        omega

/-- Popping one bubble lowers the remaining-target count exactly when that
bubble was an unpopped target. -/
lemma remTargets_set_true (target : String) : ∀ (cs : List String) (ps : List Bool)
    (i : Nat), i < cs.length → i < ps.length →
    remTargets target cs (ps.set i true) +
      (if cs.getD i "" = target ∧ ps.getD i false = false then 1 else 0) =
    remTargets target cs ps := by
  intro cs
  induction cs with
  | nil =>
    intro ps i hic _
    simp at hic
  | cons c cs ih =>
    intro ps i hic hip
    cases ps with
    | nil => simp at hip
    | cons p ps' =>
      cases i with
      | zero =>
        simp only [List.set_cons_zero, List.getD_cons_zero, remTargets]
        rw [if_neg (show ¬(c = target ∧ (true : Bool) = false) from
          fun hcc => Bool.noConfusion hcc.2)]
        split_ifs <;> omega
      | succ j =>
        simp only [List.set_cons_succ, List.getD_cons_succ, remTargets]
        have hrec := ih ps' j (by simpa using hic) (by simpa using hip)
        split_ifs at hrec ⊢ <;> omega

/-- An unpopped target bubble witnesses a positive remaining-target
count. -/
lemma remTargets_pos (target : String) : ∀ (cs : List String) (ps : List Bool)
    (i : Nat), i < cs.length → i < ps.length →
    cs.getD i "" = target → ps.getD i false = false →
    0 < remTargets target cs ps := by
  intro cs
  induction cs with
  | nil =>
    intro ps i hic _
    simp at hic
  | cons c cs ih =>
    intro ps i hic hip hc hpf
    cases ps with
    | nil => simp at hip
    | cons p ps' =>
      cases i with
      | zero =>
        rw [List.getD_cons_zero] at hc hpf
        rw [remTargets, if_pos ⟨hc, hpf⟩]
        omega
      | succ j =>
        rw [List.getD_cons_succ] at hc hpf
        rw [remTargets]
        have := ih ps' j (by simpa using hic) (by simpa using hip) hc hpf
        omega

/-- One UI-valid pop preserves the letters-round bookkeeping invariant:
the target and contents are unchanged, the pop-state array keeps its
length, and `lettersLearned` has been bumped exactly when no unpopped
target bubble remains. -/
lemma abcStep_facts (s : AbcState) (i : Nat)
    (hval : abcPopValid s i = true)
    (hlen : s.bubbleContents.length = s.popStates.length)
    (hinv : s.lettersLearned =
      if remTargets s.currentTarget s.bubbleContents s.popStates = 0
      then 1 else 0) :
    (abcHandlePop s i).bubbleContents.length = (abcHandlePop s i).popStates.length ∧
    (abcHandlePop s i).lettersLearned =
      if remTargets (abcHandlePop s i).currentTarget
          (abcHandlePop s i).bubbleContents (abcHandlePop s i).popStates = 0
      then 1 else 0 := by
  rw [abcPopValid, Bool.and_eq_true, decide_eq_true_eq, Bool.not_eq_eq_eq_not,
    Bool.not_true] at hval
  obtain ⟨hip, hp⟩ := hval
  have hic : i < s.bubbleContents.length := by omega
  have hnp : ¬(s.popStates.getD i false = true) := by
    rw [hp]
    exact fun hcontra => Bool.noConfusion hcontra
  have hkey := remTargets_set_true s.currentTarget s.bubbleContents s.popStates
    i hic hip
  by_cases hname : s.bubbleContents.getD i "" = s.currentTarget
  · rw [if_pos ⟨hname, hp⟩] at hkey
    have hpos := remTargets_pos s.currentTarget s.bubbleContents s.popStates
      i hic hip hname hp
    have hl0 : s.lettersLearned = 0 := by
      rw [hinv, if_neg (by omega)]
    by_cases hdone : remTargets s.currentTarget s.bubbleContents
        (s.popStates.set i true) = 0
    · have hstep : abcHandlePop s i =
          { s with popStates := s.popStates.set i true,
                   pops := s.pops + 1,
                   showCelebration := true,
                   lettersLearned := s.lettersLearned + 1,
                   completedCount := s.completedCount + 1 } := by
        unfold abcHandlePop
        rw [if_neg hnp, if_pos hname, if_pos hdone]
      rw [hstep]
      refine ⟨?_, ?_⟩
      · show s.bubbleContents.length = (s.popStates.set i true).length
        rw [List.length_set]
        exact hlen
      · show s.lettersLearned + 1 =
          if remTargets s.currentTarget s.bubbleContents
              (s.popStates.set i true) = 0 then 1 else 0
        rw [hl0, if_pos hdone]
    · have hstep : abcHandlePop s i =
          { s with popStates := s.popStates.set i true,
                   pops := s.pops + 1 } := by
        unfold abcHandlePop
        rw [if_neg hnp, if_pos hname, if_neg hdone]
      rw [hstep]
      refine ⟨?_, ?_⟩
      · show s.bubbleContents.length = (s.popStates.set i true).length
        rw [List.length_set]
        exact hlen
      · show s.lettersLearned =
          if remTargets s.currentTarget s.bubbleContents
              (s.popStates.set i true) = 0 then 1 else 0
        rw [hl0, if_neg hdone]
  · rw [if_neg (fun hcontra => hname hcontra.1)] at hkey
    have hstep : abcHandlePop s i =
        { s with popStates := s.popStates.set i true } := by
      unfold abcHandlePop
      rw [if_neg hnp, if_neg hname]
    rw [hstep]
    refine ⟨?_, ?_⟩
    · show s.bubbleContents.length = (s.popStates.set i true).length
      rw [List.length_set]
      exact hlen
    · show s.lettersLearned =
        if remTargets s.currentTarget s.bubbleContents
            (s.popStates.set i true) = 0 then 1 else 0
      rw [hinv]
      split_ifs <;> omega

/-- Along any UI-valid pop sequence from a state satisfying the letters
bookkeeping invariant, `lettersLearned` reads 1 exactly when the round is
complete (no unpopped target bubbles remain) and 0 otherwise. -/
lemma abcSeq_learned : ∀ (evts : List Nat) (s : AbcState),
    abcValidSeq s evts = true →
    s.bubbleContents.length = s.popStates.length →
    s.lettersLearned =
      (if remTargets s.currentTarget s.bubbleContents s.popStates = 0
       then 1 else 0) →
    (evts.foldl abcHandlePop s).lettersLearned =
      if remTargets (evts.foldl abcHandlePop s).currentTarget
          (evts.foldl abcHandlePop s).bubbleContents
          (evts.foldl abcHandlePop s).popStates = 0
      then 1 else 0 := by
  intro evts
  induction evts with
  | nil =>
    intro s _ _ hinv
    exact hinv
  | cons e rest ih =>
    intro s hval hlen hinv
    rw [abcValidSeq, Bool.and_eq_true] at hval
    obtain ⟨h1, h2⟩ := hval
    obtain ⟨hl, hi⟩ := abcStep_facts s e h1 hlen hinv
    exact ih _ h2 hl hi

/-- `countP` version of `abcPopulation_count`. -/
lemma abcPopulation_countP_eq (m : Bool) (idx : Nat) (rnd : Nat → Nat) :
    (abcPopulation m idx rnd).countP
      (fun c => decide (c = abcTarget m idx)) = abcTargetCount := by
  unfold abcPopulation
  rw [List.countP_append]
  have h1 : (List.replicate abcTargetCount (abcTarget m idx)).countP
      (fun c => decide (c = abcTarget m idx)) = abcTargetCount := by
    rw [List.countP_eq_length.mpr, List.length_replicate]
    intro a ha
    rw [List.eq_of_mem_replicate ha]
    simp
  have h2 : ((List.range (TOTAL_BUBBLES - abcTargetCount)).map
      (fun i => ((abcItems m).filter (fun item => item ≠ abcTarget m idx)).getD
        (rnd i % ((abcItems m).filter (fun item => item ≠ abcTarget m idx)).length)
        "")).countP (fun c => decide (c = abcTarget m idx)) = 0 := by
    rw [List.countP_eq_zero]
    intro a ha
    simp only [List.mem_map, List.mem_range] at ha
    obtain ⟨i, _, heq⟩ := ha
    have hpos := abcOther_pos m (abcTarget m idx)
    have hmem2 := getD_mem ((abcItems m).filter (fun item => item ≠ abcTarget m idx))
      "" (rnd i % ((abcItems m).filter (fun item => item ≠ abcTarget m idx)).length)
      (Nat.mod_lt _ hpos)
    rw [heq] at hmem2
    simp only [List.mem_filter, decide_eq_true_eq] at hmem2
    simpa using hmem2.2
  omega

/-- With no bubble pressed, no pressed bubble matches. -/
lemma poppedMatching_all_false {α : Type} [DecidableEq α] (target : α) :
    ∀ (cs : List α) (ps : List Bool), (∀ p ∈ ps, p = false) →
    poppedMatching target cs ps = 0 := by
  intro cs
  induction cs with
  | nil =>
    intro ps _
    rw [poppedMatching.eq_def]
  | cons c cs ih =>
    intro ps hps
    cases ps with
    | nil => rw [poppedMatching]
    | cons p ps' =>
      have hp : p = false := hps p (List.mem_cons_self p ps')
      subst hp
      rw [poppedMatching, ih ps' (fun q hq => hps q (List.mem_cons_of_mem _ hq)),
        if_neg (show ¬(c = target ∧ (false : Bool) = true) from
          fun hcc => Bool.noConfusion hcc.2)]

/-- Pressing an unpressed bubble raises the pressed-match count exactly
when its payload matches. -/
lemma poppedMatching_set_true {α : Type} [DecidableEq α] (target : α) (d : α) :
    ∀ (cs : List α) (ps : List Bool) (i : Nat),
    i < cs.length → i < ps.length → ps.getD i false = false →
    poppedMatching target cs (ps.set i true) =
      poppedMatching target cs ps + (if cs.getD i d = target then 1 else 0) := by
  intro cs
  induction cs with
  | nil =>
    intro ps i hic _
    simp at hic
  | cons c cs ih =>
    intro ps i hic hip hp
    cases ps with
    | nil => simp at hip
    | cons p ps' =>
      cases i with
      | zero =>
        rw [List.getD_cons_zero] at hp
        subst hp
        simp only [List.set_cons_zero, List.getD_cons_zero, poppedMatching]
        rw [if_neg (show ¬(c = target ∧ (false : Bool) = true) from
          fun hcc => Bool.noConfusion hcc.2)]
        by_cases hc : c = target
        · rw [if_pos (show c = target ∧ True from ⟨hc, trivial⟩), if_pos hc]
          omega
        · rw [if_neg (fun hcc => hc hcc.1), if_neg hc]
          omega
      | succ j =>
        simp only [List.set_cons_succ, List.getD_cons_succ, poppedMatching]
        rw [ih ps' j (by simpa using hic) (by simpa using hip)
          (by simpa using hp)]
        omega

/-- The pressed-match count never exceeds the number of matching
payloads. -/
lemma poppedMatching_le_countP {α : Type} [DecidableEq α] (target : α) :
    ∀ (cs : List α) (ps : List Bool),
    poppedMatching target cs ps ≤ cs.countP (fun c => decide (c = target)) := by
  intro cs
  induction cs with
  | nil =>
    intro ps
    rw [poppedMatching.eq_def]
    cases ps <;> simp
  | cons c cs ih =>
    intro ps
    cases ps with
    | nil =>
      rw [poppedMatching]
      omega
    | cons p ps' =>
      rw [poppedMatching, List.countP_cons]
      have := ih ps'
      by_cases hc : c = target
      · rw [if_pos (decide_eq_true hc)]
        split_ifs <;> omega
      · rw [if_neg (fun hcc => hc hcc.1), if_neg (by simp [hc])]
        omega

/-- A duplicate-free list holds any given value at most once. -/
lemma countP_eq_le_one_of_nodup {α : Type} [DecidableEq α] (target : α) :
    ∀ (cs : List α), cs.Nodup →
    cs.countP (fun c => decide (c = target)) ≤ 1 := by
  intro cs
  induction cs with
  | nil =>
    intro _
    simp
  | cons c cs ih =>
    intro hnd
    rw [List.nodup_cons] at hnd
    rw [List.countP_cons]
    by_cases hc : c = target
    · have hzero : cs.countP (fun x => decide (x = target)) = 0 := by
        rw [List.countP_eq_zero]
        intro a ha
        simp only [decide_eq_true_eq]
        intro heq
        exact hnd.1 (by rw [hc, ← heq]; exact ha)
      rw [hzero, if_pos (decide_eq_true hc)]
    · rw [if_neg (by simp [hc])]
      have := ih hnd.2
      omega

/-- Appending a fresh element preserves freedom from duplicates. -/
lemma nodup_append_singleton {α : Type} (l : List α) (d : α)
    (hnd : l.Nodup) (hd : d ∉ l) : (l ++ [d]).Nodup := by
  rw [List.nodup_append]
  exact ⟨hnd, List.nodup_singleton _,
    fun x hx hx1 => hd ((List.mem_singleton.mp hx1) ▸ hx)⟩

/-- The math.tsx distractor loop only ever inserts values not already
present, so the answer list stays duplicate-free. -/
lemma genAnswersLoop_nodup (rnd : Nat → Nat) (maxNum : Nat) :
    ∀ (fuel calls : Nat) (acc : List Int), acc.Nodup →
    ((genAnswersLoop rnd maxNum fuel calls acc).1).Nodup := by
  intro fuel
  induction fuel with
  | zero =>
    intro calls acc hnd
    exact hnd
  | succ n ih =>
    intro calls acc hnd
    unfold genAnswersLoop
    split
    · show ((genAnswersLoop rnd maxNum n (calls + 1)
        (if ((rnd calls % maxNum : Nat) : Int) + 1 ∈ acc then acc
         else acc ++ [((rnd calls % maxNum : Nat) : Int) + 1])).1).Nodup
      by_cases hmem : ((rnd calls % maxNum : Nat) : Int) + 1 ∈ acc
      · rw [if_pos hmem]
        exact ih _ _ hnd
      · rw [if_neg hmem]
        exact ih _ _ (nodup_append_singleton _ _ hnd hmem)
    · exact hnd

/-- The generated math answer population is duplicate-free: the correct
answer occurs exactly once among the bubbles. -/
lemma generateBubbleAnswers_nodup (d : MathDifficulty) (rnd : Nat → Nat)
    (answer : Int) : (generateBubbleAnswers d rnd answer).Nodup := by
  unfold generateBubbleAnswers
  exact List.Nodup.sublist (List.take_sublist _ _)
    (genAnswersLoop_nodup rnd (distractorMaxFor d) 100 0 [answer]
      (List.nodup_singleton _))

/-- One UI-valid pop preserves the math bookkeeping invariant: problem
and answer population are unchanged and `mathProblemsCompleted` equals
the number of pressed bubbles carrying the correct answer. -/
lemma mathStep_facts (s : MathState) (i : Nat)
    (hval : mathPopValid s i = true)
    (hinv : s.mathCompleted =
      poppedMatching s.problem.answer s.bubbleAnswers s.popStates) :
    (mathHandleAnswerSelect s i).bubbleAnswers = s.bubbleAnswers ∧
    (mathHandleAnswerSelect s i).problem = s.problem ∧
    (mathHandleAnswerSelect s i).mathCompleted =
      poppedMatching (mathHandleAnswerSelect s i).problem.answer
        (mathHandleAnswerSelect s i).bubbleAnswers
        (mathHandleAnswerSelect s i).popStates := by
  rw [mathPopValid, Bool.and_eq_true, Bool.and_eq_true, decide_eq_true_eq,
    decide_eq_true_eq, Bool.not_eq_eq_eq_not, Bool.not_true] at hval
  obtain ⟨⟨hia, hip⟩, hp⟩ := hval
  have hnp : ¬(s.popStates.getD i false = true) := by
    rw [hp]
    exact fun hcontra => Bool.noConfusion hcontra
  have hkey := poppedMatching_set_true s.problem.answer (0 : Int)
    s.bubbleAnswers s.popStates i hia hip hp
  by_cases hans : s.bubbleAnswers.getD i 0 = s.problem.answer
  · have hstep : mathHandleAnswerSelect s i =
        { s with popStates := s.popStates.set i true,
                 score := s.score + 10,
                 mathCompleted := s.mathCompleted + 1,
                 pops := s.pops + 1 } := by
      unfold mathHandleAnswerSelect
      rw [if_neg hnp, if_pos hans]
    rw [hstep]
    refine ⟨rfl, rfl, ?_⟩
    show s.mathCompleted + 1 =
      poppedMatching s.problem.answer s.bubbleAnswers (s.popStates.set i true)
    rw [hkey, if_pos hans]
    omega
  · have hstep : mathHandleAnswerSelect s i =
        { s with popStates := s.popStates.set i true,
                 score := max 0 (s.score - 5),
                 pops := s.pops + 1 } := by
      unfold mathHandleAnswerSelect
      rw [if_neg hnp, if_neg hans]
    rw [hstep]
    refine ⟨rfl, rfl, ?_⟩
    show s.mathCompleted =
      poppedMatching s.problem.answer s.bubbleAnswers (s.popStates.set i true)
    rw [hkey, if_neg hans]
    omega

/-- Along any UI-valid pop sequence, the math screen's completed-problems
counter equals the number of pressed bubbles carrying the correct answer,
and problem and answers are unchanged. -/
lemma mathSeq_completed : ∀ (evts : List Nat) (s : MathState),
    mathValidSeq s evts = true →
    s.mathCompleted = poppedMatching s.problem.answer s.bubbleAnswers s.popStates →
    (evts.foldl mathHandleAnswerSelect s).bubbleAnswers = s.bubbleAnswers ∧
    (evts.foldl mathHandleAnswerSelect s).problem = s.problem ∧
    (evts.foldl mathHandleAnswerSelect s).mathCompleted =
      poppedMatching (evts.foldl mathHandleAnswerSelect s).problem.answer
        (evts.foldl mathHandleAnswerSelect s).bubbleAnswers
        (evts.foldl mathHandleAnswerSelect s).popStates := by
  intro evts
  induction evts with
  | nil =>
    intro s _ hinv
    exact ⟨rfl, rfl, hinv⟩
  | cons e rest ih =>
    intro s hval hinv
    rw [mathValidSeq, Bool.and_eq_true] at hval
    obtain ⟨h1, h2⟩ := hval
    obtain ⟨ha, hpr, hc⟩ := mathStep_facts s e h1 hinv
    obtain ⟨ha', hpr', hc'⟩ := ih _ h2 (by rw [hc, hpr, ha])
    exact ⟨ha'.trans ha, hpr'.trans hpr, hc'⟩

/-- A duplicate-free list of integers all lying in `{a} ∪ [1, 10]` has at
most 11 elements. -/
lemma nodup_bounded_length_easy (acc : List Int) (a : Int)
    (hsub : ∀ x ∈ acc, x = a ∨ (1 ≤ x ∧ x ≤ 10)) (hnd : acc.Nodup) :
    acc.length ≤ 11 := by
  have hsubset : acc.toFinset ⊆ insert a (Finset.Icc (1 : Int) 10) := by
    intro x hx
    rw [List.mem_toFinset] at hx
    rcases hsub x hx with h | h
    · simp [h]
    · simp only [Finset.mem_insert, Finset.mem_Icc]
      exact Or.inr h
  calc acc.length = acc.toFinset.card := (List.toFinset_card_of_nodup hnd).symm
    _ ≤ (insert a (Finset.Icc (1 : Int) 10)).card := Finset.card_le_card hsubset
    _ ≤ (Finset.Icc (1 : Int) 10).card + 1 := Finset.card_insert_le _ _
    _ ≤ 11 := by rw [Int.card_Icc]; decide

/-- In easy mode the part_003 distractor loop can never fill the answer
list: every reachable list stays within the at-most-11 distinct values
`{answer} ∪ [1, 10]`, short of the 16 the loop guard demands. -/
lemma part3Loop_easy_stuck (rnd : Nat → Nat) :
    ∀ (fuel calls : Nat) (acc : List Int) (a : Int),
      (∀ x ∈ acc, x = a ∨ (1 ≤ x ∧ x ≤ 10)) → acc.Nodup →
      (part3Loop rnd 10 fuel calls acc).length ≤ 11 := by
  intro fuel
  induction fuel with
  | zero =>
    intro calls acc a hsub hnd
    exact nodup_bounded_length_easy acc a hsub hnd
  | succ n ih =>
    intro calls acc a hsub hnd
    unfold part3Loop
    split
    · show (part3Loop rnd 10 n (calls + 1)
        (if ((rnd calls % 10 : Nat) : Int) + 1 ∈ acc then acc
         else acc ++ [((rnd calls % 10 : Nat) : Int) + 1])).length ≤ 11
      by_cases hmem : ((rnd calls % 10 : Nat) : Int) + 1 ∈ acc
      · rw [if_pos hmem]
        exact ih _ _ a hsub hnd
      · rw [if_neg hmem]
        have hlt : rnd calls % 10 < 10 := Nat.mod_lt _ (by decide)
        apply ih _ _ a
        · intro x hx
          rcases List.mem_append.mp hx with hx | hx
          · exact hsub x hx
          · right
            have : x = ((rnd calls % 10 : Nat) : Int) + 1 := by simpa using hx
            constructor <;> omega
        · rw [List.nodup_append]
          refine ⟨hnd, List.nodup_singleton _, ?_⟩
          intro x hx hx1
          have : x = ((rnd calls % 10 : Nat) : Int) + 1 := by simpa using hx1
          exact hmem (this ▸ hx)
    · exact nodup_bounded_length_easy acc a hsub hnd

/-- The math.tsx distractor loop performs at most `fuel` iterations, so
with the source's `maxAttempts = 100` budget it draws at most 100
candidates. -/
lemma genAnswersLoop_calls_le (rnd : Nat → Nat) (maxNum : Nat) :
    ∀ (fuel calls : Nat) (acc : List Int),
      (genAnswersLoop rnd maxNum fuel calls acc).2 ≤ calls + fuel := by
  intro fuel
  induction fuel with
  | zero =>
    intro calls acc
    simp [genAnswersLoop]
  | succ n ih =>
    intro calls acc
    unfold genAnswersLoop
    split
    · exact le_trans (ih (calls + 1) _) (by omega)
    · dsimp only
      omega

end PopLearn

/-! ## Claim theorems -/

open PopLearn

/-- Claim C1: for every generated round population — color grid, letter or
number grid, and falling-shape stream — immediately after generation the
number of items matching the round's target equals the variant's required
target count: exactly 8 for colors, exactly 5 for letters/numbers, and at
least 1 for falling shapes (via forced insertion); in particular at least
one target-matching item is present at round start. -/
theorem C1_population_target_counts :
    (∀ rT rnd (shuffled : List String),
      shuffled.Perm (colorsPopulation rT rnd) →
      shuffled.count (selectTargetColor rT) = targetColorCount ∧
      1 ≤ shuffled.count (selectTargetColor rT)) ∧
    (∀ m idx rnd (shuffled : List String),
      shuffled.Perm (abcPopulation m idx rnd) →
      shuffled.count (abcTarget m idx) = abcTargetCount ∧
      1 ≤ shuffled.count (abcTarget m idx)) ∧
    (∀ d rndShape rT rF,
      1 ≤ (initializeBalloonTypes d rndShape rT rF).2.count
            (initializeBalloonTypes d rndShape rT rF).1) := by
  refine ⟨?_, ?_, ?_⟩
  · intro rT rnd shuffled hperm
    have h := hperm.count_eq (selectTargetColor rT)
    rw [colorsPopulation_count] at h
    exact ⟨h, by rw [h]; decide⟩
  · intro m idx rnd shuffled hperm
    have h := hperm.count_eq (abcTarget m idx)
    rw [abcPopulation_count] at h
    exact ⟨h, by rw [h]; decide⟩
  · intro d rndShape rT rF
    exact List.count_pos_iff.mpr (initializeBalloonTypes_mem d rndShape rT rF)

/-- Witness for C1 at concrete inputs (identity shuffle, zero random
stream, easy difficulty). -/
theorem C1_population_target_counts_witness :
    (colorsPopulation 0 (fun _ => 0)).count (selectTargetColor 0) =
      targetColorCount ∧
    (abcPopulation true 0 (fun _ => 0)).count (abcTarget true 0) =
      abcTargetCount ∧
    1 ≤ (initializeBalloonTypes BalloonDifficulty.easy (fun _ => 0) 0 0).2.count
          (initializeBalloonTypes BalloonDifficulty.easy (fun _ => 0) 0 0).1 :=
  ⟨(C1_population_target_counts.1 0 (fun _ => 0) _ (List.Perm.refl _)).1,
   (C1_population_target_counts.2.1 true 0 (fun _ => 0) _ (List.Perm.refl _)).1,
   C1_population_target_counts.2.2 BalloonDifficulty.easy (fun _ => 0) 0 0⟩

/-- Counterexample to claim C2 as stated: the color-mode grid has
`TOTAL_BUBBLES = GRID_SIZE * GRID_SIZE = 16` slots, not 25, so a
generated population has 16 items (8 target + 8 distractors), not 25
(8 + 17). -/
theorem C2_counterexample :
    TOTAL_BUBBLES = 16 ∧
    (colorsPopulation 0 (fun _ => 0)).length = 16 ∧
    ¬((colorsPopulation 0 (fun _ => 0)).length = 25) := by
  refine ⟨rfl, ?_, ?_⟩
  · rw [colorsPopulation_length]
    decide
  · rw [colorsPopulation_length]
    decide

/-- Claim C2 amended: in color mode the grid has 16 slots (4×4), and every
generated population has exactly 8 items equal to the target color and
exactly 8 items whose color is each different from the target color. -/
theorem C2_color_population_split :
    ∀ rT rnd (shuffled : List String),
      shuffled.Perm (colorsPopulation rT rnd) →
      shuffled.length = 16 ∧
      shuffled.count (selectTargetColor rT) = 8 ∧
      shuffled.countP (fun c => c ≠ selectTargetColor rT) = 8 := by
  intro rT rnd shuffled hperm
  refine ⟨?_, ?_, ?_⟩
  · rw [hperm.length_eq, colorsPopulation_length]
    decide
  · rw [hperm.count_eq, colorsPopulation_count]
    decide
  · rw [hperm.countP_eq, colorsPopulation_countP_ne]

/-- Witness for the amended C2 at a concrete input. -/
theorem C2_color_population_split_witness :
    (colorsPopulation 3 (fun i => i)).length = 16 ∧
    (colorsPopulation 3 (fun i => i)).count (selectTargetColor 3) = 8 ∧
    (colorsPopulation 3 (fun i => i)).countP
      (fun c => c ≠ selectTargetColor 3) = 8 :=
  C2_color_population_split 3 (fun i => i) _ (List.Perm.refl _)

/-- Counterexample to claim C3 as stated: the colors-variant pop handler
(src/app/colors.tsx `handlePop`) checks only `gameActive` and never the
bubble's `popped` flag, so delivering the same pop event twice to the
handler scores the bubble twice (20 points instead of 10); only the UI's
`disabled` prop keeps this from happening in the rendered game. -/
theorem C3_counterexample :
    (colorsHandlePop (colorsHandlePop
        (initColorsRound (selectTargetColor 0) (colorsPopulation 0 (fun _ => 0)))
        0) 0).score ≠
      (colorsHandlePop
        (initColorsRound (selectTargetColor 0) (colorsPopulation 0 (fun _ => 0)))
        0).score := by
  decide

/-- Claim C3 amended: in the arithmetic, speed and letters variants the
pop handler itself is idempotent — delivering the pop event twice for the
same in-range item id yields exactly the same state (hence score) as
delivering it once, because the handler ignores pops on already-popped
items.  The colors variant's handler has no such guard (see the
counterexample); there, pops on popped bubbles are prevented only by the
UI disabling the bubble. -/
theorem C3_pop_idempotent_guarded :
    (∀ (s : MathState) (i : Nat), i < s.popStates.length →
      mathHandleAnswerSelect (mathHandleAnswerSelect s i) i =
        mathHandleAnswerSelect s i) ∧
    (∀ (s : SpeedState) (i : Nat), i < s.bubbleStates.length →
      speedHandlePop (speedHandlePop s i) i = speedHandlePop s i) ∧
    (∀ (s : AbcState) (i : Nat), i < s.popStates.length →
      abcHandlePop (abcHandlePop s i) i = abcHandlePop s i) := by
  refine ⟨?_, ?_, ?_⟩
  · intro s i hlen
    by_cases h : s.popStates.getD i false = true
    · rw [mathHandle_noop_of_popped s i h, mathHandle_noop_of_popped s i h]
    · exact mathHandle_noop_of_popped _ i (mathHandle_popped_after s i h hlen)
  · intro s i hlen
    by_cases h : (!s.active || s.bubbleStates.getD i false) = true
    · rw [speedHandle_noop s i h, speedHandle_noop s i h]
    · have hsplit : s.active = true ∧ s.bubbleStates.getD i false = false := by
        constructor
        · cases ha : s.active
          · exact absurd (by rw [ha]; rfl) h
          · rfl
        · cases hb : s.bubbleStates.getD i false
          · rfl
          · exact absurd (by rw [hb, Bool.or_true]) h
      have hstep : speedHandlePop s i =
          { s with bubbleStates := s.bubbleStates.set i true,
                   poppedCount := s.poppedCount + 1,
                   score := s.score + 1,
                   pops := s.pops + 1 } := by
        unfold speedHandlePop
        rw [if_neg h]
      apply speedHandle_noop
      rw [hstep]
      dsimp only
      rw [getD_set_self _ i true false hlen, Bool.or_true]
  · intro s i hlen
    by_cases h : s.popStates.getD i false = true
    · rw [abcHandle_noop_of_popped s i h, abcHandle_noop_of_popped s i h]
    · exact abcHandle_noop_of_popped _ i (abcHandle_popped_after s i h hlen)

/-- Witness for the amended C3 at concrete round states and index 0. -/
theorem C3_pop_idempotent_guarded_witness :
    mathHandleAnswerSelect (mathHandleAnswerSelect
      (initMathRound (generateProblem MathDifficulty.easy true 0 0) [2, 3]) 0) 0 =
      mathHandleAnswerSelect
        (initMathRound (generateProblem MathDifficulty.easy true 0 0) [2, 3]) 0 ∧
    speedHandlePop (speedHandlePop
      { bubbleStates := [false, false], score := 0, poppedCount := 0,
        active := true, pops := 0 } 0) 0 =
      speedHandlePop
        { bubbleStates := [false, false], score := 0, poppedCount := 0,
          active := true, pops := 0 } 0 ∧
    abcHandlePop (abcHandlePop
      (initAbcRound (abcTarget true 0) (abcPopulation true 0 (fun _ => 0))) 0) 0 =
      abcHandlePop
        (initAbcRound (abcTarget true 0) (abcPopulation true 0 (fun _ => 0))) 0 :=
  ⟨C3_pop_idempotent_guarded.1 _ 0 (by decide),
   C3_pop_idempotent_guarded.2.1 _ 0 (by decide),
   C3_pop_idempotent_guarded.2.2 _ 0 (by decide)⟩

/-- Claim C4: starting from the initial score of 0, the score is never
negative after any finite sequence of pop events, in the colors handler,
the current arithmetic handler and the older (part_003) arithmetic
handler: every wrong-answer penalty is `Math.max(0, score - 5)`. -/
theorem C4_score_never_negative :
    (∀ (target : String) (population : List String) (evts : List Nat),
      0 ≤ (evts.foldl colorsHandlePop (initColorsRound target population)).score) ∧
    (∀ (p : MathProblem) (answers : List Int) (evts : List Nat),
      0 ≤ (evts.foldl mathHandleAnswerSelect (initMathRound p answers)).score) ∧
    (∀ (p : MathProblem) (answers : List Int) (evts : List Nat),
      0 ≤ (evts.foldl part3HandleAnswerSelect (initPart3Round p answers)).score) := by
  refine ⟨?_, ?_, ?_⟩
  · intro target population evts
    have main : ∀ (l : List Nat) (s : ColorsState), 0 ≤ s.score →
        0 ≤ (l.foldl colorsHandlePop s).score := by
      intro l
      induction l with
      | nil => intro s h; exact h
      | cons e rest ih =>
        intro s h
        exact ih _ (colorsHandlePop_score_nonneg s e h)
    exact main evts _ le_rfl
  · intro p answers evts
    have main : ∀ (l : List Nat) (s : MathState), 0 ≤ s.score →
        0 ≤ (l.foldl mathHandleAnswerSelect s).score := by
      intro l
      induction l with
      | nil => intro s h; exact h
      | cons e rest ih =>
        intro s h
        exact ih _ (mathHandle_score_nonneg s e h)
    exact main evts _ le_rfl
  · intro p answers evts
    have main : ∀ (l : List Nat) (s : Part3State), 0 ≤ s.score →
        0 ≤ (l.foldl part3HandleAnswerSelect s).score := by
      intro l
      induction l with
      | nil => intro s h; exact h
      | cons e rest ih =>
        intro s h
        exact ih _ (part3Handle_score_nonneg s e h)
    exact main evts _ le_rfl

/-- Claim C5: every generated subtraction problem, in both difficulty
levels, has its first operand at least its second, a precomputed answer
equal to their difference and non-negative, and both operands between 1
and the difficulty bound (5 easy, 10 hard). -/
theorem C5_subtraction_nonneg :
    ∀ (d : MathDifficulty) (r1 r2 : Nat),
      (generateProblem d false r1 r2).type = ProblemType.subtraction ∧
      (generateProblem d false r1 r2).num2 ≤ (generateProblem d false r1 r2).num1 ∧
      (generateProblem d false r1 r2).answer =
        (generateProblem d false r1 r2).num1 -
          (generateProblem d false r1 r2).num2 ∧
      0 ≤ (generateProblem d false r1 r2).answer ∧
      1 ≤ (generateProblem d false r1 r2).num1 ∧
      (generateProblem d false r1 r2).num1 ≤ (maxNumFor d : Int) ∧
      1 ≤ (generateProblem d false r1 r2).num2 ∧
      (generateProblem d false r1 r2).num2 ≤ (maxNumFor d : Int) := by
  intro d r1 r2
  have hmax : 0 < maxNumFor d := by cases d <;> decide
  have h1 : r1 % maxNumFor d < maxNumFor d := Nat.mod_lt _ hmax
  have h2 : r2 % (r1 % maxNumFor d + 1) < r1 % maxNumFor d + 1 :=
    Nat.mod_lt _ (Nat.succ_pos _)
  simp only [generateProblem]
  refine ⟨?_, ?_, ?_, ?_, ?_, ?_, ?_, ?_⟩ <;> first | trivial | omega

/-- Claim C6: in the timed color round the countdown starts at
`GAME_DURATION = 30` and each one-second interval firing decrements it
exactly once; after 30 ticks with zero pops the round is in the
timeout/results state (`showResults` shown, `gameActive` cleared), not the
completion path, and the `colorsLearned` progress counter is untouched by
the timer (it is never incremented on the timeout path). -/
theorem C6_round_timeout :
    (∀ k, k < GAME_DURATION →
      (colorsTick^[k] colorsTimerInit).timeRemaining = GAME_DURATION - k ∧
      (colorsTick^[k] colorsTimerInit).gameActive = true ∧
      (colorsTick^[k] colorsTimerInit).showResults = false) ∧
    colorsTick^[GAME_DURATION] colorsTimerInit =
      { timeRemaining := 0, gameActive := false, showResults := true,
        learned := 0 } ∧
    (∀ s, (colorsTick s).learned = s.learned) := by
  refine ⟨?_, ?_, ?_⟩
  · decide
  · decide
  · intro s
    unfold colorsTick
    split
    · rfl
    · rfl

/-- Witness for C6 after seven concrete ticks. -/
theorem C6_round_timeout_witness :
    (colorsTick^[7] colorsTimerInit).timeRemaining = GAME_DURATION - 7 ∧
    (colorsTick^[7] colorsTimerInit).gameActive = true ∧
    (colorsTick^[7] colorsTimerInit).showResults = false :=
  C6_round_timeout.1 7 (by decide)

/-- Claim C7 evaluation: the claim is true of the current arithmetic
screen — src/app/math.tsx's `generateBubbleAnswers` loop stops after at
most 100 candidate draws (`maxAttempts = 100`) — but the older copy in
src/unnamed/part_003 has no such bound: in easy mode (distractor bound
10) its `while (answers.length < TOTAL_BUBBLES)` loop can never make the
answer list reach 16 entries, so its exit condition never becomes true
after any number of iterations — the loop runs forever. -/
theorem C7_distractor_loop_bounds :
    (∀ (d : MathDifficulty) (rnd : Nat → Nat) (calls : Nat) (acc : List Int),
      (genAnswersLoop rnd (distractorMaxFor d) 100 calls acc).2 ≤ calls + 100) ∧
    (∀ (rnd : Nat → Nat) (fuel calls : Nat) (answer : Int),
      (part3Loop rnd (distractorMaxFor MathDifficulty.easy) fuel calls
        [answer]).length < TOTAL_BUBBLES) := by
  constructor
  · intro d rnd calls acc
    exact genAnswersLoop_calls_le rnd (distractorMaxFor d) 100 calls acc
  · intro rnd fuel calls answer
    have h : (part3Loop rnd 10 fuel calls [answer]).length ≤ 11 := by
      apply part3Loop_easy_stuck rnd fuel calls [answer] answer
      · intro x hx
        left
        simpa using hx
      · exact List.nodup_singleton _
    have : distractorMaxFor MathDifficulty.easy = 10 := rfl
    rw [this]
    calc (part3Loop rnd 10 fuel calls [answer]).length ≤ 11 := h
      _ < TOTAL_BUBBLES := by decide

/-- Claim C9: when the audio setting disables narration (`noSpeech` or
`mute`), `speakText` starts no utterance and returns silently; when
narration is enabled (`full` or `noSound`), a `speakText` call first stops
any in-flight utterance and only then starts the new one (last caller
wins, no queueing), defaulting the language to "en-GB". -/
theorem C9_speech_gate :
    ∀ (setting : AudioSetting) (text : String) (language : Option String),
      ((setting = AudioSetting.noSpeech ∨ setting = AudioSetting.mute) →
        speakTextActions setting text language = []) ∧
      ((setting = AudioSetting.full ∨ setting = AudioSetting.noSound) →
        speakTextActions setting text language =
          [SpeechAction.stopUtterance,
           SpeechAction.startUtterance text (language.getD "en-GB")]) := by
  intro setting text language
  constructor
  · intro h
    unfold speakTextActions
    rw [if_pos h]
  · intro h
    rcases h with rfl | rfl <;> simp [speakTextActions]

/-- Witness for C9 in the muted and the fully-audible setting. -/
theorem C9_speech_gate_witness :
    speakTextActions AudioSetting.mute "Find the circle!" none = [] ∧
    speakTextActions AudioSetting.full "Find the circle!" none =
      [SpeechAction.stopUtterance,
       SpeechAction.startUtterance "Find the circle!"
         ((none : Option String).getD "en-GB")] :=
  ⟨(C9_speech_gate AudioSetting.mute "Find the circle!" none).1 (Or.inr rfl),
   (C9_speech_gate AudioSetting.full "Find the circle!" none).2 (Or.inl rfl)⟩

/-- Claim C10: the session high score is monotonically non-decreasing —
`updateHighScore(s)` stores exactly the maximum of the previous high score
and `s`, so no call ever lowers it. -/
theorem C10_highScore_monotone :
    ∀ (highScore score : Int),
      updateHighScore highScore score = max highScore score ∧
      highScore ≤ updateHighScore highScore score := by
  intro h s
  by_cases hgt : s > h
  · rw [updateHighScore, if_pos hgt]
    exact ⟨(max_eq_right hgt.le).symm, hgt.le⟩
  · rw [updateHighScore, if_neg hgt]
    exact ⟨(max_eq_left (not_lt.mp hgt)).symm, le_rfl⟩

/-- Claim C8: per completed round the matching learning-progress counter
is incremented exactly once — never zero times, never more than once —
and pops that do not complete the round do not increment it.  For the
colors and letters rounds this is stated over every UI-deliverable pop
sequence from a freshly generated round: the counter reads 1 exactly when
the round is complete (all target items popped) and 0 otherwise.  For the
arithmetic round, the completed-problems counter always equals the number
of pressed bubbles carrying the correct answer, which is at most one
because the generated answers are pairwise distinct — so the completing
pop increments it exactly once and wrong pops never do. -/
theorem C8_reportProgress_exactly_once :
    (∀ rT rnd (shuffled : List String) (evts : List Nat),
      shuffled.Perm (colorsPopulation rT rnd) →
      colorsValidSeq (initColorsRound (selectTargetColor rT) shuffled) evts
        = true →
      (evts.foldl colorsHandlePop
        (initColorsRound (selectTargetColor rT) shuffled)).learned =
        if (evts.foldl colorsHandlePop
          (initColorsRound (selectTargetColor rT) shuffled)).remaining = 0
        then 1 else 0) ∧
    (∀ m idx rnd (shuffled : List String) (evts : List Nat),
      shuffled.Perm (abcPopulation m idx rnd) →
      abcValidSeq (initAbcRound (abcTarget m idx) shuffled) evts = true →
      (evts.foldl abcHandlePop
        (initAbcRound (abcTarget m idx) shuffled)).lettersLearned =
        if remTargets
            (evts.foldl abcHandlePop
              (initAbcRound (abcTarget m idx) shuffled)).currentTarget
            (evts.foldl abcHandlePop
              (initAbcRound (abcTarget m idx) shuffled)).bubbleContents
            (evts.foldl abcHandlePop
              (initAbcRound (abcTarget m idx) shuffled)).popStates = 0
        then 1 else 0) ∧
    (∀ (p : MathProblem) (d : MathDifficulty) (rnd : Nat → Nat)
        (shuffled : List Int) (evts : List Nat),
      shuffled.Perm (generateBubbleAnswers d rnd p.answer) →
      mathValidSeq (initMathRound p shuffled) evts = true →
      (evts.foldl mathHandleAnswerSelect
        (initMathRound p shuffled)).mathCompleted =
        poppedMatching p.answer shuffled
          (evts.foldl mathHandleAnswerSelect
            (initMathRound p shuffled)).popStates ∧
      (evts.foldl mathHandleAnswerSelect
        (initMathRound p shuffled)).mathCompleted ≤ 1) := by
  refine ⟨?_, ?_, ?_⟩
  · intro rT rnd shuffled evts hperm hval
    refine colorsSeq_learned evts _ hval rfl ?_ ?_
    · show (targetColorCount : Int) =
        ((initColorsRound (selectTargetColor rT) shuffled).bubbles.countP
          (isUnpoppedTarget (selectTargetColor rT)) : Int)
      rw [initColors_countP, hperm.countP_eq, colorsPopulation_countP_eq]
    · show (0 : Nat) = if (targetColorCount : Int) = 0 then 1 else 0
      rw [if_neg (by norm_num [targetColorCount])]
  · intro m idx rnd shuffled evts hperm hval
    refine abcSeq_learned evts _ hval ?_ ?_
    · show shuffled.length = (List.replicate TOTAL_BUBBLES false).length
      rw [List.length_replicate, hperm.length_eq, abcPopulation_length]
    · show (0 : Nat) =
        if remTargets (abcTarget m idx) shuffled
            (List.replicate TOTAL_BUBBLES false) = 0 then 1 else 0
      rw [remTargets_all_false _ _ _ (fun q hq => List.eq_of_mem_replicate hq),
        hperm.countP_eq, abcPopulation_countP_eq]
      rw [if_neg (by norm_num [abcTargetCount])]
  · intro p d rnd shuffled evts hperm hval
    have hnd : shuffled.Nodup :=
      (hperm.nodup_iff).mpr (generateBubbleAnswers_nodup d rnd p.answer)
    obtain ⟨ha, hpr, hc⟩ := mathSeq_completed evts (initMathRound p shuffled) hval
      (by
        show (0 : Nat) =
          poppedMatching p.answer shuffled (List.replicate TOTAL_BUBBLES false)
        rw [poppedMatching_all_false _ _ _
          (fun q hq => List.eq_of_mem_replicate hq)])
    have hc' : (evts.foldl mathHandleAnswerSelect
        (initMathRound p shuffled)).mathCompleted =
        poppedMatching p.answer shuffled
          (evts.foldl mathHandleAnswerSelect
            (initMathRound p shuffled)).popStates := by
      rw [hc, hpr, ha]
      rfl
    refine ⟨hc', ?_⟩
    rw [hc']
    exact le_trans (poppedMatching_le_countP _ shuffled _)
      (countP_eq_le_one_of_nodup _ shuffled hnd)

/-- Witness for C8: popping the eight target bubbles completes the colors
round with `colorsLearned` at 1; popping the five target letters completes
the letters round; answering the arithmetic problem correctly on the
first tap leaves the completed-problems counter at most 1. -/
theorem C8_reportProgress_exactly_once_witness :
    (([0, 1, 2, 3, 4, 5, 6, 7] : List Nat).foldl colorsHandlePop
      (initColorsRound (selectTargetColor 0)
        (colorsPopulation 0 (fun _ => 0)))).learned =
      (if (([0, 1, 2, 3, 4, 5, 6, 7] : List Nat).foldl colorsHandlePop
        (initColorsRound (selectTargetColor 0)
          (colorsPopulation 0 (fun _ => 0)))).remaining = 0
       then 1 else 0) ∧
    (([0, 1, 2, 3, 4] : List Nat).foldl abcHandlePop
      (initAbcRound (abcTarget true 0)
        (abcPopulation true 0 (fun _ => 0)))).lettersLearned =
      (if remTargets
          (([0, 1, 2, 3, 4] : List Nat).foldl abcHandlePop
            (initAbcRound (abcTarget true 0)
              (abcPopulation true 0 (fun _ => 0)))).currentTarget
          (([0, 1, 2, 3, 4] : List Nat).foldl abcHandlePop
            (initAbcRound (abcTarget true 0)
              (abcPopulation true 0 (fun _ => 0)))).bubbleContents
          (([0, 1, 2, 3, 4] : List Nat).foldl abcHandlePop
            (initAbcRound (abcTarget true 0)
              (abcPopulation true 0 (fun _ => 0)))).popStates = 0
       then 1 else 0) ∧
    (([0] : List Nat).foldl mathHandleAnswerSelect
      (initMathRound (generateProblem MathDifficulty.easy true 0 0)
        (generateBubbleAnswers MathDifficulty.easy (fun i => i)
          (generateProblem MathDifficulty.easy true 0 0).answer))).mathCompleted
      ≤ 1 :=
  ⟨C8_reportProgress_exactly_once.1 0 (fun _ => 0) _ [0, 1, 2, 3, 4, 5, 6, 7]
      (List.Perm.refl _) (by decide),
   C8_reportProgress_exactly_once.2.1 true 0 (fun _ => 0) _ [0, 1, 2, 3, 4]
      (List.Perm.refl _) (by decide),
   (C8_reportProgress_exactly_once.2.2
      (generateProblem MathDifficulty.easy true 0 0) MathDifficulty.easy
      (fun i => i) _ [0] (List.Perm.refl _) (by decide)).2⟩
